import Mathlib

/-!
Shallow embedding of the FLAISimulator repository (docs/game.js, docs/leaderboard.js,
docs/data-export.js, and the Netlify data-collection function) in Lean 4.

Conventions used throughout:
* JavaScript numbers are modelled exactly: integer-valued quantities as `ℕ`/`ℤ`,
  fractional intermediate quantities as `ℚ`.  `Math.round` on a non-NaN value is
  `jsRound` (round half toward positive infinity); a `NaN` result (0/0) is
  modelled as `Option.none`.
* `Math.random()` draws are passed in as an explicit parameter `rnd : ℚ`.
* `Date.now()` and other clock reads are passed in as explicit parameters.
* JavaScript objects used as string-keyed maps are modelled as association
  lists in key-insertion order (JS objects preserve insertion order); `m[k]`
  is `lookupCount`/`lookupPair` and `m[k] = (m[k] || 0) + 1` is `bump`.
* `Array.prototype.sort` with a consistent comparator `c` is a stable sort by
  the total preorder `a ≼ b ↔ c a b ≤ 0`; it is embedded as
  `List.insertionSort`, which is stable, hence extensionally equal to it.
* Long Spanish prose fields that no logic inspects (scenario `title`,
  `context`, `description`, `question`, option `text`, `legal_reference`,
  `risk_level`) are elided from the scenario catalog; all fields that any
  computation reads (`id`, option `type`, `score`, `cultural_flags`) are kept
  verbatim.
-/

namespace FLAI

/-- JavaScript `Math.round` for non-NaN arguments: round half toward +∞. -/
def jsRound (q : ℚ) : ℤ := ⌊q + 1/2⌋

/-! ### Scenario catalog (game.js, `initializeScenarios`) -/

/-- One answer option of a scenario (game.js scenario records; prose `text`
elided, see module docstring). -/
structure ScenarioOption where
  type : String
  score : ℕ
  cultural_flags : List String
deriving DecidableEq, Repr

/-- One scenario of the fixed catalog (prose fields elided). -/
structure Scenario where
  id : ℕ
  options : List ScenarioOption
deriving DecidableEq, Repr

/-- The fixed ten-scenario catalog from game.js `initializeScenarios`. -/
def flaiScenarios : List Scenario :=
  [ { id := 1, options :=
      [ { type := "risky", score := 0, cultural_flags := ["acceptance_of_gifts", "relationship_priority", "financial_pressure"] }
      , { type := "ethical", score := 10, cultural_flags := ["ethical_clarity", "policy_adherence", "alternative_solution"] }
      , { type := "consultation", score := 7, cultural_flags := ["consultation_pattern", "hierarchy_respect", "legal_awareness"] } ] }
  , { id := 2, options :=
      [ { type := "risky", score := 2, cultural_flags := ["information_advantage", "relationship_leverage", "competitive_edge"] }
      , { type := "ethical", score := 10, cultural_flags := ["integrity_priority", "compliance_reporting", "risk_aversion"] }
      , { type := "consultation", score := 8, cultural_flags := ["boundary_setting", "relationship_care", "mutual_protection"] } ] }
  , { id := 3, options :=
      [ { type := "risky", score := 1, cultural_flags := ["family_loyalty", "cost_priority", "informal_process"] }
      , { type := "ethical", score := 10, cultural_flags := ["process_fairness", "professional_boundaries", "transparency"] }
      , { type := "consultation", score := 6, cultural_flags := ["evaluation_process", "hierarchical_consultation", "comparative_analysis"] } ] }
  , { id := 4, options :=
      [ { type := "risky", score := 0, cultural_flags := ["team_loyalty", "short_term_thinking", "authority_deference"] }
      , { type := "ethical", score := 10, cultural_flags := ["protocol_adherence", "independence_maintenance", "accountability"] }
      , { type := "consultation", score := 7, cultural_flags := ["escalation_opportunity", "relationship_preservation", "time_bound_solution"] } ] }
  , { id := 5, options :=
      [ { type := "risky", score := 2, cultural_flags := ["cultural_courtesy", "relationship_maintenance", "seasonal_normalization"] }
      , { type := "ethical", score := 10, cultural_flags := ["policy_consistency", "ethical_alternative", "transparency"] }
      , { type := "consultation", score := 8, cultural_flags := ["immediate_reporting", "guidance_seeking", "documentation"] } ] }
  , { id := 6, options :=
      [ { type := "risky", score := 1, cultural_flags := ["results_pressure", "technical_justification", "investor_pressure"] }
      , { type := "ethical", score := 10, cultural_flags := ["professional_standards", "legal_compliance", "integrity_priority"] }
      , { type := "consultation", score := 7, cultural_flags := ["technical_consultation", "external_validation", "collaborative_solution"] } ] }
  , { id := 7, options :=
      [ { type := "risky", score := 0, cultural_flags := ["efficiency_priority", "influence_leverage", "expedited_process"] }
      , { type := "ethical", score := 10, cultural_flags := ["process_integrity", "transparency", "long_term_perspective"] }
      , { type := "consultation", score := 8, cultural_flags := ["formal_process", "due_diligence", "documentation"] } ] }
  , { id := 8, options :=
      [ { type := "risky", score := 3, cultural_flags := ["colleague_favor", "information_sharing", "relationship_priority"] }
      , { type := "ethical", score := 10, cultural_flags := ["confidentiality_respect", "formal_channels", "professional_boundaries"] }
      , { type := "consultation", score := 7, cultural_flags := ["appropriate_guidance", "supervision_involvement", "process_redirect"] } ] }
  , { id := 9, options :=
      [ { type := "risky", score := 2, cultural_flags := ["cost_priority", "responsibility_limitation", "business_focus"] }
      , { type := "ethical", score := 10, cultural_flags := ["social_responsibility", "ethical_sourcing", "standards_priority"] }
      , { type := "consultation", score := 8, cultural_flags := ["verification_requirement", "improvement_opportunity", "conditional_relationship"] } ] }
  , { id := 10, options :=
      [ { type := "risky", score := 0, cultural_flags := ["family_benefit", "subtle_communication", "insider_advantage"] }
      , { type := "ethical", score := 10, cultural_flags := ["conflict_avoidance", "professional_ethics", "independent_advice"] }
      , { type := "consultation", score := 6, cultural_flags := ["policy_verification", "formal_consultation", "guidance_seeking"] } ] } ]

/-! ### Answers and user profile (game.js `selectOption`/`skipScenario`/`timeExpired`, `startGame`) -/

/-- One recorded answer (game.js `selectOption` / `skipScenario` / `timeExpired`). -/
structure Answer where
  scenario_id : ℕ
  scenario_title : String
  selected_option : ℤ
  option_type : String
  score : ℕ
  cultural_flags : List String
  time_taken : ℕ
  timestamp : ℤ
deriving DecidableEq, Repr

/-- The demographic profile collected by game.js `startGame`. -/
structure UserProfile where
  sector : String
  position : String
  experience : String
  region : String
  timestamp : ℤ
  session_id : String
deriving DecidableEq, Repr

/-! ### Cultural-pattern insights (game.js `analyzeCulturalPatterns`) -/

/-- One insight record pushed by `analyzeCulturalPatterns`. -/
structure Insight where
  title : String
  description : String
deriving DecidableEq, Repr

/-- JS object lookup `m[k] || 0` on a string-keyed counter object. -/
def lookupCount : List (String × ℕ) → String → ℕ
  | [], _ => 0
  | p :: rest, f => if p.1 = f then p.2 else lookupCount rest f

/-- JS counter-object update `m[k] = (m[k] || 0) + 1`: increment in place if the
key is present, otherwise append it (JS objects keep insertion order). -/
def bump : List (String × ℕ) → String → List (String × ℕ)
  | [], g => [(g, 1)]
  | p :: rest, g => if p.1 = g then (p.1, p.2 + 1) :: rest else p :: bump rest g

/-- The `flagCounts` object: count occurrences of each flag, in first-seen order. -/
def flagCountsOf (flags : List String) : List (String × ℕ) :=
  flags.foldl bump []

def consultationFlags : List String := ["consultation_pattern", "hierarchy_respect", "guidance_seeking"]
def riskFlags : List String := ["risk_aversion", "policy_adherence", "protocol_adherence"]
def relationshipFlags : List String := ["relationship_priority", "family_loyalty", "colleague_favor"]

/-- JS number-to-string conversion for the template literal interpolation,
rendering the exact rational value. -/
def jsNumToString (q : ℚ) : String :=
  if q.den = 1 then toString q.num else toString q.num ++ "/" ++ toString q.den

/-- The consultation insight; its description interpolates `15 + Math.random()*20`,
so it depends on the random draw `rnd`. -/
def consultInsight (rnd : ℚ) : Insight :=
  { title := "Patrón de Consulta Elevado"
  , description := "Tu tendencia a consultar está " ++ jsNumToString (15 + rnd * 20) ++ "% por encima del promedio argentino. Esto refleja un perfil cauteloso y colaborativo." }

def riskInsight : Insight :=
  { title := "Alta Aversión al Riesgo"
  , description := "Muestras alta aversión al riesgo ético, alineado con las nuevas generaciones de profesionales argentinos post-crisis." }

def relationshipInsight : Insight :=
  { title := "Influencia Relacional"
  , description := "Tus decisiones están influenciadas por relaciones personales, característico de la cultura empresarial argentina." }

def balancedInsight : Insight :=
  { title := "Perfil Equilibrado"
  , description := "Muestras un perfil de toma de decisiones equilibrado, adaptándote al contexto específico de cada situación." }

/-- game.js `analyzeCulturalPatterns(flags)`, with the single `Math.random()`
draw of the consultation-insight description passed in as `rnd`. -/
def analyzeCulturalPatterns (flags : List String) (rnd : ℚ) : List Insight :=
  let flagCounts := flagCountsOf flags
  let consultationCount := consultationFlags.foldl (fun sum flag => sum + lookupCount flagCounts flag) 0
  let riskCount := riskFlags.foldl (fun sum flag => sum + lookupCount flagCounts flag) 0
  let relationshipCount := relationshipFlags.foldl (fun sum flag => sum + lookupCount flagCounts flag) 0
  let insights : List Insight :=
    (if 3 ≤ consultationCount then [consultInsight rnd] else []) ++
    (if 2 ≤ riskCount then [riskInsight] else []) ++
    (if 2 ≤ relationshipCount then [relationshipInsight] else [])
  if insights.length = 0 then [balancedInsight] else insights

/-! ### Scoring (game.js `calculateResults`) -/

/-- The `decisionTypes` counters of `calculateResults`. -/
structure DecisionTypes where
  ethical : ℕ
  consultation : ℕ
  risky : ℕ
  skipped : ℕ
  timeout : ℕ
deriving DecidableEq, Repr

/-- The record returned by game.js `calculateResults`.  `avg_response_time` is
`none` exactly when the JS computation is `Math.round(0/0) = NaN`. -/
structure GameResults where
  total_score : ℕ
  percentage : ℤ
  category : String
  description : String
  decision_types : DecisionTypes
  cultural_analysis : List Insight
  avg_response_time : Option ℤ
  game_duration : ℤ
  answers : List Answer
  user_profile : UserProfile
deriving DecidableEq, Repr

/-- game.js `calculateResults`.  Explicit parameters: the recorded answers and
profile (instance state), the `Math.random()` draw `rnd` used by
`analyzeCulturalPatterns`, and the clock values `now` (`Date.now()`) and
`gameStartTime`. -/
def calculateResults (answers : List Answer) (profile : UserProfile) (rnd : ℚ)
    (now gameStartTime : ℤ) : GameResults :=
  let totalScore : ℕ := answers.foldl (fun sum answer => sum + answer.score) 0
  let maxPossibleScore : ℕ := flaiScenarios.length * 10
  let percentage := jsRound ((totalScore : ℚ) / (maxPossibleScore : ℚ) * 100)
  let decisionTypes : DecisionTypes :=
    { ethical := (answers.filter (fun a => a.option_type = "ethical")).length
    , consultation := (answers.filter (fun a => a.option_type = "consultation")).length
    , risky := (answers.filter (fun a => a.option_type = "risky")).length
    , skipped := (answers.filter (fun a => a.option_type = "skipped")).length
    , timeout := (answers.filter (fun a => a.option_type = "timeout")).length }
  let categoryDescription : String × String :=
    if 85 ≤ percentage then
      ("Ético Ejemplar", "Tienes un perfil ético excepcional con decisiones consistentemente íntegras.")
    else if 70 ≤ percentage then
      ("Ético Sólido", "Muestras un perfil ético sólido con tendencia a tomar decisiones responsables.")
    else if 55 ≤ percentage then
      ("Perfil Mixto", "Tu perfil muestra flexibilidad ética con tendencia a evaluar contextos específicos.")
    else if 40 ≤ percentage then
      ("Perfil Pragmático", "Priorizas resultados prácticos, con espacio para fortalecer consideraciones éticas.")
    else
      ("Perfil de Alto Riesgo", "Tu perfil sugiere alta tolerancia al riesgo ético. Recomendamos formación en compliance.")
  let culturalFlags := answers.flatMap (fun a => a.cultural_flags)
  let culturalAnalysis := analyzeCulturalPatterns culturalFlags rnd
  let avgResponseTime : Option ℚ :=
    if answers.length = 0 then none
    else some (((answers.filter (fun a => 0 < a.time_taken)).foldl (fun sum a => sum + (a.time_taken : ℚ)) 0) / (answers.length : ℚ))
  { total_score := totalScore
  , percentage := percentage
  , category := categoryDescription.1
  , description := categoryDescription.2
  , decision_types := decisionTypes
  , cultural_analysis := culturalAnalysis
  , avg_response_time := avgResponseTime.map jsRound
  , game_duration := now - gameStartTime
  , answers := answers
  , user_profile := profile }

/-! ### Leaderboard (leaderboard.js `FLAILeaderboard`) -/

/-- The `session_data` sub-record of a leaderboard entry built by `addEntry`. -/
structure SessionSummary where
  game_duration : ℤ
  avg_response_time : Option ℤ
  decision_types : DecisionTypes
deriving DecidableEq, Repr

/-- One stored leaderboard entry (leaderboard.js `addEntry` / `seedSampleData`).
Seeded sample entries carry no `session_data`, hence the `Option`. -/
structure LBEntry where
  id : String
  name : String
  score : ℤ
  category : String
  sector : String
  position : String
  region : String
  timestamp : ℤ
  verified : Bool
  session_data : Option SessionSummary
deriving DecidableEq, Repr

/-- leaderboard.js `this.maxEntries = 100`. -/
def maxEntries : ℕ := 100

/-- The argument record of `addEntry(gameData)`; `sector`, `position`, `region`
and `timestamp` may be absent (the source applies `|| fallback` defaults). -/
structure AddEntryData where
  score : ℤ
  category : String
  sector : Option String
  position : Option String
  region : Option String
  timestamp : Option ℤ
  game_duration : ℤ
  avg_response_time : Option ℤ
  decision_types : DecisionTypes
deriving DecidableEq, Repr

/-- The `newEntry` object of `addEntry`; the randomly generated `id` and
anonymous `name`, and the `Date.now()` fallback clock, are explicit
parameters. -/
def buildEntry (gameData : AddEntryData) (id name : String) (now : ℤ) : LBEntry :=
  { id := id
  , name := name
  , score := gameData.score
  , category := gameData.category
  , sector := gameData.sector.getD "no_especificado"
  , position := gameData.position.getD "no_especificado"
  , region := gameData.region.getD "no_especificado"
  , timestamp := gameData.timestamp.getD now
  , verified := false
  , session_data := some
      { game_duration := gameData.game_duration
      , avg_response_time := gameData.avg_response_time
      , decision_types := gameData.decision_types } }

/-- The total preorder of the `addEntry` sort comparator
`(a, b) => b.score !== a.score ? b.score - a.score : b.timestamp - a.timestamp`:
`a` may precede `b` iff the comparator is nonpositive. -/
def addEntryLe (a b : LBEntry) : Prop :=
  b.score < a.score ∨ (b.score = a.score ∧ b.timestamp ≤ a.timestamp)

instance : DecidableRel addEntryLe := fun a b => by unfold addEntryLe; infer_instance

instance : IsTotal LBEntry addEntryLe :=
  ⟨fun a b => by unfold addEntryLe; omega⟩

instance : IsTrans LBEntry addEntryLe :=
  ⟨fun a b c hab hbc => by unfold addEntryLe at *; omega⟩

/-- leaderboard.js `addEntry`, restricted to its effect on the persisted list:
push the new entry, stable-sort by the comparator, truncate to `maxEntries`.
(The stored-list read/write and the returned rank are outside this function.) -/
def addEntry (leaderboard : List LBEntry) (gameData : AddEntryData) (id name : String)
    (now : ℤ) : List LBEntry :=
  ((leaderboard ++ [buildEntry gameData id name now]).insertionSort addEntryLe).take maxEntries

/-- The entry object pushed onto the `flai_leaderboard` list by game.js
`saveGameData` (score is the session percentage). -/
structure GDEntry where
  score : ℤ
  category : String
  timestamp : ℤ
  sector : String
  position : String
  region : String
deriving DecidableEq, Repr

/-- The total preorder of the `saveGameData` sort comparator
`(a, b) => b.score - a.score` (score only, no tie-break). -/
def saveScoreLe (a b : GDEntry) : Prop := b.score ≤ a.score

instance : DecidableRel saveScoreLe := fun a b => by unfold saveScoreLe; infer_instance

instance : IsTotal GDEntry saveScoreLe := ⟨fun a b => by unfold saveScoreLe; omega⟩

instance : IsTrans GDEntry saveScoreLe := ⟨fun a b c hab hbc => by unfold saveScoreLe at *; omega⟩

/-- game.js `saveGameData`, restricted to its leaderboard update: push the
session entry, stable-sort by score descending only, keep the top 100. -/
def saveGameDataUpdate (leaderboard : List GDEntry) (gameData : GDEntry) : List GDEntry :=
  ((leaderboard ++ [gameData]).insertionSort saveScoreLe).take 100

/-- The claimed leaderboard order of C4: score descending, ties broken by
most-recent timestamp first (written for `GDEntry` rows). -/
def gdClaimLe (a b : GDEntry) : Prop :=
  b.score < a.score ∨ (b.score = a.score ∧ b.timestamp ≤ a.timestamp)

instance : DecidableRel gdClaimLe := fun a b => by unfold gdClaimLe; infer_instance

/-! ### Leaderboard analytics (leaderboard.js) -/

/-- Generic JS counter-object update, `m[k] = (m[k] || 0) + 1`, over any key
type (used with day indices as well as strings). -/
def bumpKey {κ : Type} [DecidableEq κ] : List (κ × ℕ) → κ → List (κ × ℕ)
  | [], g => [(g, 1)]
  | p :: rest, g => if p.1 = g then (p.1, p.2 + 1) :: rest else p :: bumpKey rest g

/-- leaderboard.js `calculateAverageScore`: 0 on the empty list, else the
rounded arithmetic mean. -/
def calculateAverageScore (data : List LBEntry) : ℤ :=
  if data.length = 0 then 0
  else jsRound (((data.foldl (fun sum entry => sum + entry.score) 0 : ℤ) : ℚ) / (data.length : ℚ))

/-- leaderboard.js `calculateSectorDistribution`. -/
def calculateSectorDistribution (data : List LBEntry) : List (String × ℕ) :=
  data.foldl (fun distribution entry => bumpKey distribution entry.sector) []

/-- leaderboard.js `calculateRegionDistribution`. -/
def calculateRegionDistribution (data : List LBEntry) : List (String × ℕ) :=
  data.foldl (fun distribution entry => bumpKey distribution entry.region) []

/-- The fixed score-range counters of `calculateScoreDistribution`. -/
structure ScoreRangeCounts where
  r90to100 : ℕ
  r80to89 : ℕ
  r70to79 : ℕ
  r60to69 : ℕ
  r50to59 : ℕ
  r0to49 : ℕ
deriving DecidableEq, Repr

/-- leaderboard.js `calculateScoreDistribution`: bucket each entry into the
fixed ranges via the if/else chain, then render the fixed-key object. -/
def calculateScoreDistribution (data : List LBEntry) : List (String × ℕ) :=
  let counts : ScoreRangeCounts := data.foldl
    (fun ranges entry =>
      if 90 ≤ entry.score then { ranges with r90to100 := ranges.r90to100 + 1 }
      else if 80 ≤ entry.score then { ranges with r80to89 := ranges.r80to89 + 1 }
      else if 70 ≤ entry.score then { ranges with r70to79 := ranges.r70to79 + 1 }
      else if 60 ≤ entry.score then { ranges with r60to69 := ranges.r60to69 + 1 }
      else if 50 ≤ entry.score then { ranges with r50to59 := ranges.r50to59 + 1 }
      else { ranges with r0to49 := ranges.r0to49 + 1 })
    ⟨0, 0, 0, 0, 0, 0⟩
  [("90-100", counts.r90to100), ("80-89", counts.r80to89), ("70-79", counts.r70to79),
   ("60-69", counts.r60to69), ("50-59", counts.r50to59), ("0-49", counts.r0to49)]

/-- The analytics summary object written by leaderboard.js `updateAnalytics`
and read back by `getAnalytics`. -/
structure Analytics where
  total_players : ℕ
  average_score : ℤ
  sector_distribution : List (String × ℕ)
  region_distribution : List (String × ℕ)
  score_distribution : List (String × ℕ)
  last_updated : ℤ
deriving DecidableEq, Repr

/-- leaderboard.js `calculatePositionDistribution`. -/
def calculatePositionDistribution (data : List LBEntry) : List (String × ℕ) :=
  data.foldl (fun distribution entry => bumpKey distribution entry.position) []

/-- leaderboard.js `getEntriesByDay`; `now` is the `Date.now()` read, and
`Math.floor((now - ts) / 86400000)` is exact floor division. -/
def getEntriesByDay (now : ℤ) (data : List LBEntry) : List (ℤ × ℕ) :=
  data.foldl (fun dayPattern entry =>
    bumpKey dayPattern (Int.fdiv (now - entry.timestamp) (24 * 60 * 60 * 1000))) []

/-- leaderboard.js `getPeakHours`; the timezone-dependent
`new Date(ts).getHours()` is the explicit parameter `hourOf`. -/
def getPeakHours (hourOf : ℤ → ℕ) (data : List LBEntry) : List (ℕ × ℕ) :=
  data.foldl (fun hourPattern entry => bumpKey hourPattern (hourOf entry.timestamp)) []

/-- Accumulator of `calculateSectorAverages` / `calculateRegionAverages`:
per-key `{ total, count }` objects, in key-insertion order. -/
def bumpTotalCount (m : List (String × (ℤ × ℕ))) (k : String) (score : ℤ) :
    List (String × (ℤ × ℕ)) :=
  match m with
  | [] => [(k, (score, 1))]
  | p :: rest =>
    if p.1 = k then (p.1, (p.2.1 + score, p.2.2 + 1)) :: rest
    else p :: bumpTotalCount rest k score

/-- leaderboard.js `calculateSectorAverages`. -/
def calculateSectorAverages (data : List LBEntry) : List (String × ℤ) :=
  let sectorScores := data.foldl (fun m entry => bumpTotalCount m entry.sector entry.score) []
  sectorScores.map (fun p => (p.1, jsRound ((p.2.1 : ℚ) / (p.2.2 : ℚ))))

/-- leaderboard.js `calculateRegionAverages`. -/
def calculateRegionAverages (data : List LBEntry) : List (String × ℤ) :=
  let regionScores := data.foldl (fun m entry => bumpTotalCount m entry.region entry.score) []
  regionScores.map (fun p => (p.1, jsRound ((p.2.1 : ℚ) / (p.2.2 : ℚ))))

structure LeaderboardSummary where
  total_entries : ℕ
  average_score : ℤ
  top_10_average : ℤ
  score_distribution : List (String × ℕ)
deriving DecidableEq, Repr

structure DemographicBreakdown where
  by_sector : List (String × ℕ)
  by_region : List (String × ℕ)
  by_position : List (String × ℕ)
deriving DecidableEq, Repr

structure TemporalPatterns where
  entries_by_day : List (ℤ × ℕ)
  peak_hours : List (ℕ × ℕ)
deriving DecidableEq, Repr

structure PerformanceInsights where
  sector_averages : List (String × ℤ)
  region_averages : List (String × ℤ)
deriving DecidableEq, Repr

/-- The record returned by leaderboard.js `getComprehensiveAnalytics`. -/
structure ComprehensiveAnalytics where
  leaderboard_summary : LeaderboardSummary
  demographic_breakdown : DemographicBreakdown
  temporal_patterns : TemporalPatterns
  performance_insights : PerformanceInsights
deriving DecidableEq, Repr

/-- leaderboard.js `getComprehensiveAnalytics`.  Explicit parameters: the
stored leaderboard list, the stored analytics summary (`null` when absent),
the `Date.now()` read `now`, and the timezone-dependent `hourOf`.
`analytics?.x || fallback` is `Option.map` + `getD` (for `average_score` the
falsy value 0 coincides with the fallback 0, and for the distributions the
falsy values are only the absent object, so `getD` is exact). -/
def getComprehensiveAnalytics (hourOf : ℤ → ℕ) (now : ℤ) (leaderboard : List LBEntry)
    (analytics : Option Analytics) : ComprehensiveAnalytics :=
  { leaderboard_summary :=
    { total_entries := leaderboard.length
    , average_score := (analytics.map Analytics.average_score).getD 0
    , top_10_average := calculateAverageScore (leaderboard.take 10)
    , score_distribution := (analytics.map Analytics.score_distribution).getD [] }
  , demographic_breakdown :=
    { by_sector := (analytics.map Analytics.sector_distribution).getD []
    , by_region := (analytics.map Analytics.region_distribution).getD []
    , by_position := calculatePositionDistribution leaderboard }
  , temporal_patterns :=
    { entries_by_day := getEntriesByDay now leaderboard
    , peak_hours := getPeakHours hourOf leaderboard }
  , performance_insights :=
    { sector_averages := calculateSectorAverages leaderboard
    , region_averages := calculateRegionAverages leaderboard } }

/-! ### Data export (docs/data-export.js) and leaderboard read path -/

/-- leaderboard.js `getLeaderboardData`: `data ? JSON.parse(data) : []` inside
try/catch.  `localStorage.getItem` yields `stored` (absent key is `none`), and
the `JSON.parse` library call is the parameter `parse`, returning `none` when
it throws; the catch branch returns the empty list. -/
def getLeaderboardData (parse : String → Option (List LBEntry)) (stored : Option String) :
    List LBEntry :=
  match stored with
  | none => []
  | some data => if data.isEmpty then [] else (parse data).getD []

/-- The demographics sub-record persisted by game.js `saveGameData`. -/
structure Demographics where
  sector : String
  position : String
  experience : String
  region : String
deriving DecidableEq, Repr

/-- One stored research answer (game.js `saveGameData` stores no per-answer
`timestamp`, so data-export.js reading `answer.timestamp` may see `undefined`,
hence the `Option`). -/
structure ResearchAnswer where
  scenario_id : ℕ
  option_type : String
  cultural_flags : List String
  time_taken : ℕ
  timestamp : Option ℤ
deriving DecidableEq, Repr

/-- The `results` sub-record persisted by game.js `saveGameData`. -/
structure ResearchResults where
  total_score : ℕ
  percentage : ℤ
  decision_types : DecisionTypes
  avg_response_time : Option ℤ
  game_duration : ℤ
deriving DecidableEq, Repr

/-- One stored research session (the `flai_research_data` records). -/
structure ResearchSession where
  session_id : String
  demographics : Demographics
  results : ResearchResults
  answers : List ResearchAnswer
  timestamp : ℤ
deriving DecidableEq, Repr

/-- One projected decision in `getGameSessionsData` output. -/
structure DecisionOut where
  scenario_id : ℕ
  decision_type : String
  cultural_flags : List String
  response_time : ℕ
  timestamp : Option ℤ
deriving DecidableEq, Repr

/-- The `performance` projection in `getGameSessionsData` output. -/
structure PerformanceOut where
  total_score : ℕ
  percentage : ℤ
  completion_time : ℤ
  avg_response_time : Option ℤ
  decision_breakdown : DecisionTypes
deriving DecidableEq, Repr

/-- One projected session in `getGameSessionsData` output. -/
structure SessionOut where
  session_id : String
  timestamp : ℤ
  demographics : Demographics
  performance : PerformanceOut
  decisions : List DecisionOut
deriving DecidableEq, Repr

/-- The per-session projection inside data-export.js `getGameSessionsData`. -/
def sessionToOut (session : ResearchSession) : SessionOut :=
  { session_id := session.session_id
  , timestamp := session.timestamp
  , demographics := session.demographics
  , performance :=
    { total_score := session.results.total_score
    , percentage := session.results.percentage
    , completion_time := session.results.game_duration
    , avg_response_time := session.results.avg_response_time
    , decision_breakdown := session.results.decision_types }
  , decisions := session.answers.map (fun answer =>
      { scenario_id := answer.scenario_id
      , decision_type := answer.option_type
      , cultural_flags := answer.cultural_flags
      , response_time := answer.time_taken
      , timestamp := answer.timestamp }) }

/-- data-export.js `getGameSessionsData`:
`JSON.parse(localStorage.getItem('flai_research_data') || '[]')` mapped
through the projection, inside try/catch returning `[]` on error. -/
def getGameSessionsData (parse : String → Option (List ResearchSession))
    (stored : Option String) : List SessionOut :=
  let raw := match stored with
    | none => "[]"
    | some data => if data.isEmpty then "[]" else data
  match parse raw with
  | none => []
  | some researchData => researchData.map sessionToOut

/-- The CSV header row of data-export.js `downloadCSV`. -/
def csvHeaders : List String :=
  [ "session_id", "timestamp", "sector", "position", "region", "experience",
    "total_score", "percentage", "completion_time", "avg_response_time",
    "ethical_decisions", "consultation_decisions", "risky_decisions",
    "scenario_1", "scenario_2", "scenario_3", "scenario_4", "scenario_5",
    "scenario_6", "scenario_7", "scenario_8", "scenario_9", "scenario_10" ]

/-- One CSV data row of `downloadCSV` (as the list of cell strings that
`row.join` concatenates; numbers are rendered by JS number-to-string and an
`undefined` cell joins as the empty string).  `isoOf` is the library call
`new Date(ts).toISOString()`. -/
def csvRow (isoOf : ℤ → String) (session : SessionOut) : List String :=
  [ session.session_id
  , isoOf session.timestamp
  , session.demographics.sector
  , session.demographics.position
  , session.demographics.region
  , session.demographics.experience
  , toString session.performance.total_score
  , toString session.performance.percentage
  , toString session.performance.completion_time
  , (match session.performance.avg_response_time with
     | some t => toString t
     | none => "")
  , toString session.performance.decision_breakdown.ethical
  , toString session.performance.decision_breakdown.consultation
  , toString session.performance.decision_breakdown.risky ]
  ++ (List.range 10).map (fun i =>
      match session.decisions.find? (fun d => d.scenario_id = i + 1) with
      | some decision => decision.decision_type
      | none => "")

/-- All CSV rows: header plus one row per session. -/
def csvRows (isoOf : ℤ → String) (sessions : List SessionOut) : List (List String) :=
  csvHeaders :: sessions.map (csvRow isoOf)

/-- data-export.js `downloadCSV`: bails out (alert, no file) on an empty
session list, otherwise produces the joined CSV text. -/
def downloadCSV (isoOf : ℤ → String) (sessions : List SessionOut) : Option String :=
  if sessions.length = 0 then none
  else some (String.intercalate "\n" ((csvRows isoOf sessions).map (String.intercalate ",")))

/-! ### Remote ingestion handler (Netlify function, `exports.handler`) -/

theorem find?_unique {α : Type} (p : α → Bool) (l : List α) (d : α)
    (hd : d ∈ l) (hp : p d = true) (huniq : ∀ e ∈ l, p e = true → e = d) :
    l.find? p = some d := by
  induction l with
  | nil => cases hd
  | cons a rest ih =>
    by_cases ha : p a = true
    · have had : a = d := huniq a (List.mem_cons_self a rest) ha
      simp [List.find?, ha, had, hp]
    · have hdr : d ∈ rest := by
        rcases List.mem_cons.mp hd with h | h
        · exact absurd (h ▸ hp) ha
        · exact h
      simp only [List.find?, Bool.eq_false_iff.mpr ha]
      exact ih hdr (fun e he hpe => huniq e (List.mem_cons_of_mem a he) hpe)

theorem lookupCount_bump (m : List (String × ℕ)) (g f : String) :
    lookupCount (bump m g) f = lookupCount m f + (if f = g then 1 else 0) := by
  induction m with
  | nil =>
    simp only [bump, lookupCount]
    by_cases h : g = f
    · simp [h]
    · have h2 : f ≠ g := fun hx => h hx.symm
      simp [h, h2]
  | cons p rest ih =>
    simp only [bump]
    by_cases hpg : p.1 = g
    · simp only [if_pos hpg, lookupCount]
      by_cases hpf : p.1 = f
      · have hfg : f = g := hpf ▸ hpg
        simp [hpf, hfg]
      · have hfg : f ≠ g := fun h => hpf (h ▸ hpg)
        simp [hpf, hfg]
    · simp only [if_neg hpg, lookupCount]
      by_cases hpf : p.1 = f
      · have hfg : f ≠ g := fun h => hpg (by rw [hpf, h])
        simp [hpf, hfg]
      · simp [hpf, ih]

theorem lookupCount_foldl_bump (flags : List String) (m : List (String × ℕ)) (f : String) :
    lookupCount (flags.foldl bump m) f = lookupCount m f + flags.count f := by
  induction flags generalizing m with
  | nil => simp
  | cons g rest ih =>
    simp only [List.foldl_cons, ih, lookupCount_bump, List.count_cons, beq_iff_eq]
    by_cases h : f = g
    · simp [h]
      omega
    · have h2 : ¬g = f := fun hx => h hx.symm
      simp [h, h2]

theorem lookupCount_flagCountsOf (flags : List String) (f : String) :
    lookupCount (flagCountsOf flags) f = flags.count f := by
  simp [flagCountsOf, lookupCount_foldl_bump, lookupCount]

/-- The insight list produced by `analyzeCulturalPatterns`, re-expressed through
plain occurrence counts of the grouped flags. -/
theorem analyzeCulturalPatterns_eq (flags : List String) (rnd : ℚ) :
    analyzeCulturalPatterns flags rnd =
      (let triggered :=
        (if 3 ≤ flags.count "consultation_pattern" + flags.count "hierarchy_respect" + flags.count "guidance_seeking"
         then [consultInsight rnd] else []) ++
        (if 2 ≤ flags.count "risk_aversion" + flags.count "policy_adherence" + flags.count "protocol_adherence"
         then [riskInsight] else []) ++
        (if 2 ≤ flags.count "relationship_priority" + flags.count "family_loyalty" + flags.count "colleague_favor"
         then [relationshipInsight] else []);
       if triggered.length = 0 then [balancedInsight] else triggered) := by
  unfold analyzeCulturalPatterns
  simp only [consultationFlags, riskFlags, relationshipFlags, List.foldl_cons, List.foldl_nil,
    lookupCount_flagCountsOf, Nat.zero_add]

theorem analyzeCulturalPatterns_map_title (flags : List String) (r1 r2 : ℚ) :
    (analyzeCulturalPatterns flags r1).map Insight.title
      = (analyzeCulturalPatterns flags r2).map Insight.title := by
  rw [analyzeCulturalPatterns_eq, analyzeCulturalPatterns_eq]
  split_ifs <;> simp_all [consultInsight, riskInsight, relationshipInsight, balancedInsight]

theorem jsRound_intCast (n : ℤ) : jsRound ((n : ℚ)) = n := by
  unfold jsRound
  rw [Int.floor_int_add]
  norm_num

theorem jsRound_natCast (n : ℕ) : jsRound ((n : ℚ)) = (n : ℤ) := by
  have := jsRound_intCast (n : ℤ)
  simpa using this

theorem foldl_add_score (l : List Answer) (n : ℕ) :
    l.foldl (fun sum a => sum + a.score) n = n + (l.map Answer.score).sum := by
  induction l generalizing n with
  | nil => simp
  | cons a rest ih => simp [ih]; omega

theorem foldl_add_time (l : List Answer) (q : ℚ) :
    l.foldl (fun sum a => sum + (a.time_taken : ℚ)) q
      = q + (((l.map Answer.time_taken).sum : ℕ) : ℚ) := by
  induction l generalizing q with
  | nil => simp
  | cons a rest ih =>
    simp [ih]
    ring

theorem calculateResults_percentage (answers : List Answer) (profile : UserProfile) (rnd : ℚ)
    (now gs : ℤ) :
    (calculateResults answers profile rnd now gs).percentage
      = (((answers.map Answer.score).sum : ℕ) : ℤ) := by
  show jsRound ((((answers.foldl (fun sum a => sum + a.score) 0 : ℕ)) : ℚ)
      / (((flaiScenarios.length * 10 : ℕ)) : ℚ) * 100) = _
  rw [foldl_add_score, show flaiScenarios.length * 10 = 100 from rfl, Nat.zero_add,
    show (((100 : ℕ)) : ℚ) = (100 : ℚ) by norm_num,
    div_mul_cancel₀ _ (by norm_num : (100 : ℚ) ≠ 0), jsRound_natCast]

theorem calculateResults_category (answers : List Answer) (profile : UserProfile) (rnd : ℚ)
    (now gs : ℤ) :
    (calculateResults answers profile rnd now gs).category =
      (if 85 ≤ (calculateResults answers profile rnd now gs).percentage then "Ético Ejemplar"
       else if 70 ≤ (calculateResults answers profile rnd now gs).percentage then "Ético Sólido"
       else if 55 ≤ (calculateResults answers profile rnd now gs).percentage then "Perfil Mixto"
       else if 40 ≤ (calculateResults answers profile rnd now gs).percentage then "Perfil Pragmático"
       else "Perfil de Alto Riesgo") := by
  show (if 85 ≤ (calculateResults answers profile rnd now gs).percentage then
        (("Ético Ejemplar", "Tienes un perfil ético excepcional con decisiones consistentemente íntegras.") : String × String)
      else if 70 ≤ (calculateResults answers profile rnd now gs).percentage then
        ("Ético Sólido", "Muestras un perfil ético sólido con tendencia a tomar decisiones responsables.")
      else if 55 ≤ (calculateResults answers profile rnd now gs).percentage then
        ("Perfil Mixto", "Tu perfil muestra flexibilidad ética con tendencia a evaluar contextos específicos.")
      else if 40 ≤ (calculateResults answers profile rnd now gs).percentage then
        ("Perfil Pragmático", "Priorizas resultados prácticos, con espacio para fortalecer consideraciones éticas.")
      else
        ("Perfil de Alto Riesgo", "Tu perfil sugiere alta tolerancia al riesgo ético. Recomendamos formación en compliance.")).1 = _
  split_ifs <;> rfl

/-! ### Claims -/

/-- C2: for every Answer list of any length, the percentage divides the total
score by the fixed denominator 100 (10 scenarios times 10 points), never by the
list length, and therefore always equals the raw total score. -/
theorem claim_C2 (answers : List Answer) (profile : UserProfile) (rnd : ℚ) (now gs : ℤ) :
    (calculateResults answers profile rnd now gs).percentage
        = jsRound ((((answers.map Answer.score).sum : ℕ) : ℚ) / 100 * 100) ∧
    (calculateResults answers profile rnd now gs).percentage
        = (((answers.map Answer.score).sum : ℕ) : ℤ) := by
  constructor
  · rw [calculateResults_percentage,
      div_mul_cancel₀ _ (by norm_num : (100 : ℚ) ≠ 0), jsRound_natCast]
  · exact calculateResults_percentage answers profile rnd now gs

/-- C1: for a list of exactly ten answers with per-answer scores in 0..10, the
percentage equals the rounded `sum/100*100`, i.e. the plain sum, lies in
[0,100], and the category is the fixed band containing it. -/
theorem claim_C1 (answers : List Answer) (profile : UserProfile) (rnd : ℚ) (now gs : ℤ)
    (hlen : answers.length = 10) (hscore : ∀ a ∈ answers, a.score ≤ 10) :
    (calculateResults answers profile rnd now gs).percentage
        = jsRound ((((answers.map Answer.score).sum : ℕ) : ℚ) / 100 * 100) ∧
    (calculateResults answers profile rnd now gs).percentage
        = (((answers.map Answer.score).sum : ℕ) : ℤ) ∧
    0 ≤ (calculateResults answers profile rnd now gs).percentage ∧
    (calculateResults answers profile rnd now gs).percentage ≤ 100 ∧
    (calculateResults answers profile rnd now gs).category =
      (if 85 ≤ (answers.map Answer.score).sum then "Ético Ejemplar"
       else if 70 ≤ (answers.map Answer.score).sum then "Ético Sólido"
       else if 55 ≤ (answers.map Answer.score).sum then "Perfil Mixto"
       else if 40 ≤ (answers.map Answer.score).sum then "Perfil Pragmático"
       else "Perfil de Alto Riesgo") := by
  have hp := calculateResults_percentage answers profile rnd now gs
  have hsum : (answers.map Answer.score).sum ≤ 100 := by
    have := List.sum_le_card_nsmul (answers.map Answer.score) 10
      (by intro x hx; obtain ⟨a, ha, rfl⟩ := List.mem_map.mp hx; exact hscore a ha)
    simpa [hlen] using this
  refine ⟨?_, hp, ?_, ?_, ?_⟩
  · rw [hp, div_mul_cancel₀ _ (by norm_num : (100 : ℚ) ≠ 0), jsRound_natCast]
  · rw [hp]; positivity
  · rw [hp]; exact_mod_cast hsum
  · rw [calculateResults_category, hp]
    split_ifs <;> first | rfl | omega

/-- Fixed ten-answer list for the C1 witness: every answer picks the score-10
ethical option. -/
def c1Answers : List Answer :=
  (List.range 10).map fun i =>
    { scenario_id := i + 1, scenario_title := "", selected_option := 1,
      option_type := "ethical", score := 10,
      cultural_flags := [], time_taken := 3, timestamp := 0 }

def blankProfile : UserProfile :=
  { sector := "not_specified", position := "not_specified", experience := "not_specified",
    region := "not_specified", timestamp := 0, session_id := "" }

theorem claim_C1_witness :
    c1Answers.length = 10 ∧ (∀ a ∈ c1Answers, a.score ≤ 10) ∧
    ((calculateResults c1Answers blankProfile 0 0 0).percentage
        = (((c1Answers.map Answer.score).sum : ℕ) : ℤ) ∧
      (calculateResults c1Answers blankProfile 0 0 0).category =
      (if 85 ≤ (c1Answers.map Answer.score).sum then "Ético Ejemplar"
       else if 70 ≤ (c1Answers.map Answer.score).sum then "Ético Sólido"
       else if 55 ≤ (c1Answers.map Answer.score).sum then "Perfil Mixto"
       else if 40 ≤ (c1Answers.map Answer.score).sum then "Perfil Pragmático"
       else "Perfil de Alto Riesgo")) :=
  ⟨by decide, by decide,
    (claim_C1 c1Answers blankProfile 0 0 0 (by decide) (by decide)).2.1,
    (claim_C1 c1Answers blankProfile 0 0 0 (by decide) (by decide)).2.2.2.2⟩

/-- C3: `analyzeCulturalPatterns` emits the consultation insight iff the summed
occurrence count of the consultation-group flags is at least 3, the
risk-aversion insight iff its group count is at least 2, the relationship
insight iff its group count is at least 2, in rule-declaration order, and the
single balanced-profile default insight iff no group triggers. -/
theorem claim_C3 (flags : List String) (rnd : ℚ) :
    analyzeCulturalPatterns flags rnd =
      (let triggered :=
        (if 3 ≤ flags.count "consultation_pattern" + flags.count "hierarchy_respect" + flags.count "guidance_seeking"
         then [consultInsight rnd] else []) ++
        (if 2 ≤ flags.count "risk_aversion" + flags.count "policy_adherence" + flags.count "protocol_adherence"
         then [riskInsight] else []) ++
        (if 2 ≤ flags.count "relationship_priority" + flags.count "family_loyalty" + flags.count "colleague_favor"
         then [relationshipInsight] else []);
       if triggered.length = 0 then [balancedInsight] else triggered) :=
  analyzeCulturalPatterns_eq flags rnd

/-- C10: `avg_response_time` divides the sum of the strictly positive response
times by the total number of answers (zero-time answers count in the
denominator but not the numerator); on the empty list the JS computation is
`Math.round(0/0) = NaN`, modelled as `none`. -/
theorem claim_C10 (answers : List Answer) (profile : UserProfile) (rnd : ℚ) (now gs : ℤ)
    (h : answers ≠ []) :
    (calculateResults answers profile rnd now gs).avg_response_time =
      some (jsRound (((((answers.filter (fun a => 0 < a.time_taken)).map Answer.time_taken).sum : ℕ) : ℚ)
        / ((answers.length : ℕ) : ℚ))) ∧
    (calculateResults [] profile rnd now gs).avg_response_time = none := by
  constructor
  · show Option.map jsRound
      (if answers.length = 0 then none
       else some (((answers.filter (fun a => 0 < a.time_taken)).foldl
          (fun sum a => sum + (a.time_taken : ℚ)) 0) / ((answers.length : ℕ) : ℚ))) = _
    rw [if_neg (by simpa using h)]
    rw [foldl_add_time]
    simp
  · rfl

def c10Answers : List Answer :=
  [ { scenario_id := 1, scenario_title := "", selected_option := 0,
      option_type := "risky", score := 0,
      cultural_flags := [], time_taken := 5, timestamp := 0 }
  , { scenario_id := 2, scenario_title := "", selected_option := -1,
      option_type := "timeout", score := 0,
      cultural_flags := [], time_taken := 0, timestamp := 0 } ]

theorem claim_C10_witness :
    c10Answers ≠ [] ∧
    (calculateResults c10Answers blankProfile 0 0 0).avg_response_time =
      some (jsRound (((((c10Answers.filter (fun a => 0 < a.time_taken)).map Answer.time_taken).sum : ℕ) : ℚ)
        / ((c10Answers.length : ℕ) : ℚ))) :=
  ⟨by decide, (claim_C10 c10Answers blankProfile 0 0 0 (by decide)).1⟩

/-- C5 fails: the consultation insight interpolates a fresh `Math.random()`
draw into its description, so two evaluations of `calculateResults` on the same
answers (with different draws) differ in the insight text. -/
def c5Answer : Answer :=
  { scenario_id := 1, scenario_title := "", selected_option := 2,
    option_type := "consultation", score := 7,
    cultural_flags := ["consultation_pattern", "consultation_pattern", "consultation_pattern"],
    time_taken := 5, timestamp := 0 }

theorem claim_C5_counterexample :
    calculateResults [c5Answer] blankProfile 0 0 0
      ≠ calculateResults [c5Answer] blankProfile (1/2) 0 0 := by
  intro h
  have h2 := congrArg GameResults.cultural_analysis h
  have hA : ∀ r : ℚ,
      analyzeCulturalPatterns ["consultation_pattern", "consultation_pattern", "consultation_pattern"] r
        = [consultInsight r] := fun r => rfl
  have e1 : (calculateResults [c5Answer] blankProfile 0 0 0).cultural_analysis
      = analyzeCulturalPatterns ["consultation_pattern", "consultation_pattern", "consultation_pattern"] 0 := rfl
  have e2 : (calculateResults [c5Answer] blankProfile (1/2) 0 0).cultural_analysis
      = analyzeCulturalPatterns ["consultation_pattern", "consultation_pattern", "consultation_pattern"] (1/2) := rfl
  rw [e1, e2, hA, hA] at h2
  have h3 : consultInsight 0 = consultInsight (1/2) := by
    have := List.cons.injEq (consultInsight 0) [] (consultInsight (1/2)) []
    exact ((this ▸ h2 : _ ∧ _)).1
  have h4 := congrArg Insight.description h3
  simp only [consultInsight] at h4
  rw [show (15 : ℚ) + 0 * 20 = 15 by norm_num,
    show (15 : ℚ) + 1 / 2 * 20 = 25 by norm_num] at h4
  exact absurd h4 (by decide)

/-- C5 amended: every component of the Scorer output except the consultation
insight description is a deterministic function of the answer list (and clock
inputs); insight titles, selection and order are deterministic. -/
theorem claim_C5_amended (answers : List Answer) (profile : UserProfile) (r1 r2 : ℚ)
    (now gs : ℤ) :
    (calculateResults answers profile r1 now gs).total_score
        = (calculateResults answers profile r2 now gs).total_score ∧
    (calculateResults answers profile r1 now gs).percentage
        = (calculateResults answers profile r2 now gs).percentage ∧
    (calculateResults answers profile r1 now gs).category
        = (calculateResults answers profile r2 now gs).category ∧
    (calculateResults answers profile r1 now gs).description
        = (calculateResults answers profile r2 now gs).description ∧
    (calculateResults answers profile r1 now gs).decision_types
        = (calculateResults answers profile r2 now gs).decision_types ∧
    (calculateResults answers profile r1 now gs).avg_response_time
        = (calculateResults answers profile r2 now gs).avg_response_time ∧
    (calculateResults answers profile r1 now gs).game_duration
        = (calculateResults answers profile r2 now gs).game_duration ∧
    (calculateResults answers profile r1 now gs).answers
        = (calculateResults answers profile r2 now gs).answers ∧
    (calculateResults answers profile r1 now gs).user_profile
        = (calculateResults answers profile r2 now gs).user_profile ∧
    (calculateResults answers profile r1 now gs).cultural_analysis.map Insight.title
        = (calculateResults answers profile r2 now gs).cultural_analysis.map Insight.title :=
  ⟨rfl, rfl, rfl, rfl, rfl, rfl, rfl, rfl, rfl,
    analyzeCulturalPatterns_map_title (answers.flatMap (fun a => a.cultural_flags)) r1 r2⟩

/-! ### C4: leaderboard ordering and cap -/

/-- Score-tied entries for the C4 counterexample: the stored entry is older
(timestamp 100), the new session entry is newer (timestamp 200). -/
def gdOld : GDEntry :=
  { score := 50, category := "", timestamp := 100, sector := "", position := "", region := "" }

def gdNew : GDEntry :=
  { score := 50, category := "", timestamp := 200, sector := "", position := "", region := "" }

/-- C4 fails as stated: `saveGameData` re-sorts by score only (stably), so
after its update a score tie keeps the older entry first, violating the
claimed most-recent-first tie order. -/
theorem claim_C4_counterexample :
    saveGameDataUpdate [gdOld] gdNew = [gdOld, gdNew] ∧
    ¬ (saveGameDataUpdate [gdOld] gdNew).Sorted gdClaimLe := by decide

/-- Input stream for the 105-insertion cap check: distinct scores 0..104. -/
def c4Data (i : ℕ) : AddEntryData :=
  { score := (i : ℤ), category := "", sector := none, position := none, region := none,
    timestamp := some (i : ℤ), game_duration := 0, avg_response_time := none,
    decision_types := ⟨0, 0, 0, 0, 0⟩ }

/-- The persisted list after inserting the 105 entries through `addEntry`,
starting from an empty stored list. -/
def c4Final : List LBEntry :=
  (List.range 105).foldl (fun lb i => addEntry lb (c4Data i) "" "" 0) []

set_option maxRecDepth 10000 in
/-- C4 amended: after every `addEntry` the persisted list is sorted by score
descending with most-recent-first tie-break and holds at most 100 entries;
after the `saveGameData` update it is sorted by score descending only (ties
keep insertion order) and holds at most 100 entries; and inserting 105
distinct-score entries leaves exactly the top 100 scores (104 down to 5), the
5 lowest absent. -/
theorem claim_C4_amended :
    (∀ (lb : List LBEntry) (gd : AddEntryData) (id name : String) (now : ℤ),
      (addEntry lb gd id name now).Sorted addEntryLe ∧
      (addEntry lb gd id name now).length ≤ 100) ∧
    (∀ (lb : List GDEntry) (gd : GDEntry),
      (saveGameDataUpdate lb gd).Sorted saveScoreLe ∧
      (saveGameDataUpdate lb gd).length ≤ 100) ∧
    (c4Final.length = 100 ∧
      c4Final.map LBEntry.score = (List.range 100).map (fun i => ((104 - i : ℕ) : ℤ))) :=
  ⟨fun lb gd id name now =>
    ⟨(List.sorted_insertionSort addEntryLe _).sublist (List.take_sublist _ _),
      List.length_take_le _ _⟩,
   fun lb gd =>
    ⟨(List.sorted_insertionSort saveScoreLe _).sublist (List.take_sublist _ _),
      List.length_take_le _ _⟩,
   by decide⟩

/-- C6: the grouped counts and averages returned by
`getComprehensiveAnalytics` — leaderboard summary (score-range distribution,
averages), demographic breakdown (per-sector/per-region counts, position
distribution) and performance insights (per-sector/per-region mean scores) —
are a pure function of the stored leaderboard list and analytics summary:
two calls, even at different clock times, agree on all of them. -/
theorem claim_C6 (hourOf : ℤ → ℕ) (now1 now2 : ℤ) (lb : List LBEntry)
    (analytics : Option Analytics) :
    (getComprehensiveAnalytics hourOf now1 lb analytics).leaderboard_summary
      = (getComprehensiveAnalytics hourOf now2 lb analytics).leaderboard_summary ∧
    (getComprehensiveAnalytics hourOf now1 lb analytics).demographic_breakdown
      = (getComprehensiveAnalytics hourOf now2 lb analytics).demographic_breakdown ∧
    (getComprehensiveAnalytics hourOf now1 lb analytics).performance_insights
      = (getComprehensiveAnalytics hourOf now2 lb analytics).performance_insights :=
  ⟨rfl, rfl, rfl⟩

/-! ### C8: fail-open reads -/

/-- C8: a stored string that is not valid JSON (the parse throws) makes both
read operations return the empty list instead of propagating the error. -/
theorem claim_C8 (parseLB : String → Option (List LBEntry))
    (parseRD : String → Option (List ResearchSession)) (s : String)
    (h0 : s.isEmpty = false) (hLB : parseLB s = none) (hRD : parseRD s = none) :
    getLeaderboardData parseLB (some s) = [] ∧
    getGameSessionsData parseRD (some s) = [] := by
  constructor
  · simp [getLeaderboardData, h0, hLB]
  · simp [getGameSessionsData, h0, hRD]

def parseFailLB : String → Option (List LBEntry) := fun _ => none

def parseFailRD : String → Option (List ResearchSession) := fun _ => none

theorem claim_C8_witness :
    ("not json").isEmpty = false ∧
    parseFailLB "not json" = none ∧ parseFailRD "not json" = none ∧
    getLeaderboardData parseFailLB (some "not json") = [] ∧
    getGameSessionsData parseFailRD (some "not json") = [] :=
  ⟨by decide, rfl, rfl,
   (claim_C8 parseFailLB parseFailRD "not json" (by decide) rfl rfl).1,
   (claim_C8 parseFailLB parseFailRD "not json" (by decide) rfl rfl).2⟩

/-! ### C9: CSV round-trip of decision types -/

/-- C9: in every data row of the CSV produced by `downloadCSV`, the
`scenario_k` column (index `12 + k`, after the 13 fixed columns) holds exactly
the decision type of the session answer recorded for scenario `k`, and the
empty string when no answer for scenario `k` was recorded. -/
theorem claim_C9 (isoOf : ℤ → String) (sessions : List SessionOut) (s : SessionOut)
    (hs : s ∈ sessions) (k : ℕ) (h1 : 1 ≤ k) (hk : k ≤ 10) :
    downloadCSV isoOf sessions
      = some (String.intercalate "\n" ((csvRows isoOf sessions).map (String.intercalate ","))) ∧
    csvRow isoOf s ∈ csvRows isoOf sessions ∧
    ((∀ d ∈ s.decisions, d.scenario_id ≠ k) → (csvRow isoOf s).get? (12 + k) = some "") ∧
    (∀ d ∈ s.decisions, d.scenario_id = k →
      (∀ e ∈ s.decisions, e.scenario_id = k → e = d) →
      (csvRow isoOf s).get? (12 + k) = some d.decision_type) := by
  have hne : ¬ sessions.length = 0 := by
    intro h
    rw [List.length_eq_zero] at h
    subst h
    cases hs
  obtain ⟨l1, l2, hdef, hlen1, hl2⟩ :
      ∃ l1 l2, csvRow isoOf s = l1 ++ l2 ∧ l1.length = 13 ∧
        l2 = (List.range 10).map (fun i =>
          match s.decisions.find? (fun d => d.scenario_id = i + 1) with
          | some decision => decision.decision_type
          | none => "") :=
    ⟨_, _, rfl, rfl, rfl⟩
  have hrow : (csvRow isoOf s).get? (12 + k)
      = some (match s.decisions.find? (fun d => d.scenario_id = k) with
          | some decision => decision.decision_type
          | none => "") := by
    rw [hdef, List.get?_append_right (by rw [hlen1]; omega), hlen1, hl2,
      List.get?_map, List.get?_range (by omega)]
    simp only [Option.map_some']
    rw [show 12 + k - 13 + 1 = k by omega]
  refine ⟨by simp [downloadCSV, hne], List.mem_cons_of_mem _ (List.mem_map_of_mem _ hs), ?_, ?_⟩
  · intro hnone
    rw [hrow, List.find?_eq_none.mpr (fun x hx => by simpa using hnone x hx)]
  · intro d hd hdk huniq
    rw [hrow, find?_unique (fun e => e.scenario_id = k) s.decisions d hd
      (by simpa using hdk) (fun e he hpe => huniq e he (by simpa using hpe))]

def c9Decision : DecisionOut :=
  { scenario_id := 3, decision_type := "ethical", cultural_flags := [],
    response_time := 4, timestamp := none }

def c9Session : SessionOut :=
  { session_id := "s1", timestamp := 0, demographics := ⟨"", "", "", ""⟩,
    performance :=
      { total_score := 10, percentage := 10, completion_time := 0,
        avg_response_time := none, decision_breakdown := ⟨1, 0, 0, 0, 0⟩ },
    decisions := [c9Decision] }

def c9Iso : ℤ → String := fun _ => "1970-01-01T00:00:00.000Z"

theorem claim_C9_witness :
    c9Session ∈ [c9Session] ∧ 1 ≤ 3 ∧ (3 : ℕ) ≤ 10 ∧
    c9Decision ∈ c9Session.decisions ∧ c9Decision.scenario_id = 3 ∧
    (csvRow c9Iso c9Session).get? (12 + 3) = some c9Decision.decision_type :=
  ⟨List.mem_cons_self _ _, by decide, by decide, List.mem_cons_self _ _, rfl,
   (claim_C9 c9Iso [c9Session] c9Session (List.mem_cons_self _ _) 3 (by decide) (by decide)).2.2.2
     c9Decision (List.mem_cons_self _ _) rfl (by decide)⟩

/-! ### C7: remote ingestion handler statuses -/

end FLAI
